import Mathlib

/-!
Shallow embedding of src/mysql_mcp_server/server.py (a MySQL MCP adapter):
the configuration resolver get_db_config and the three request handlers
list_resources, read_resource and call_tool, together with theorems checking
the specification claims about them.

Python exceptions are modelled with an Except monad over PyError; the MySQL
driver (connection, cursor) is modelled as record-valued oracles supplying the
outcomes of connect / execute / fetchall / commit, so that each handler is a
pure function of the environment, the parsed command-line options, the driver
behaviour and the request.
-/

/-- Python exception classes that the embedded code can raise or catch.
mysql.connector.Error is the only class caught by the except-blocks of the
handlers; ValueError, RuntimeError, KeyError, TypeError and IndexError pass
through them. -/
structure MySQLError where
  msg : String
deriving Repr, DecidableEq

inductive PyError where
  | valueError (msg : String)
  | runtimeError (msg : String)
  | keyError (key : String)
  | typeError (msg : String)
  | indexError (msg : String)
  | mysqlError (e : MySQLError)
deriving Repr, DecidableEq

/-- Computation that can raise a Python exception. -/
abbrev Py (α : Type) := Except PyError α

instance exceptDecEq {ε α : Type} [DecidableEq ε] [DecidableEq α] :
    DecidableEq (Except ε α) := fun x y =>
  match x, y with
  | .error a, .error b =>
    if h : a = b then .isTrue (by rw [h]) else .isFalse (fun hc => by cases hc; exact h rfl)
  | .error _, .ok _ => .isFalse (fun hc => by cases hc)
  | .ok _, .error _ => .isFalse (fun hc => by cases hc)
  | .ok a, .ok b =>
    if h : a = b then .isTrue (by rw [h]) else .isFalse (fun hc => by cases hc; exact h rfl)

/-- Lift a driver-level failure into the Python exception monad
(raising a mysql.connector.Error). -/
def liftE {α : Type} : Except MySQLError α → Py α
  | .ok a => .ok a
  | .error e => .error (.mysqlError e)

/-- Model of a try/except-mysql.connector.Error block: only mysqlError is
caught by the handler; every other exception propagates. -/
def catchMySQL {α : Type} (body : Py α) (handler : MySQLError → Py α) : Py α :=
  match body with
  | .error (.mysqlError e) => handler e
  | other => other

/-- A Python value appearing in a driver row; str() is toStr. -/
inductive PyValue where
  | int (n : Int)
  | str (s : String)
deriving Repr, DecidableEq

def PyValue.toStr : PyValue → String
  | .int n => toString n
  | .str s => s

/-- row[0]: Python list/tuple indexing, raising IndexError when empty. -/
def pyIndex0 : List PyValue → Py PyValue
  | [] => .error (.indexError "index out of range")
  | v :: _ => .ok v

/-- parts[0] for a list of strings. -/
def pyHead : List String → Py String
  | [] => .error (.indexError "list index out of range")
  | s :: _ => .ok s

/-- str.join requires every item to be a str, else TypeError. -/
def pyAsStr : PyValue → Py String
  | .str s => .ok s
  | .int n => .error (.typeError ("sequence item: expected str instance, int found " ++ toString n))

/-- Accumulate the decimal value of a digit run; none on a non-digit. -/
def decAux : List Char → Nat → Option Nat
  | [], acc => some acc
  | c :: cs, acc =>
    if c.isDigit then decAux cs (acc * 10 + (c.toNat - '0'.toNat)) else none

/-- Python int() on the decimal literals this program feeds it
(optional minus sign and digits); anything else raises ValueError. -/
def pyInt (s : String) : Py Int :=
  match s.data with
  | '-' :: c :: cs =>
    match decAux (c :: cs) 0 with
    | some n => .ok (-(n : Int))
    | none => .error (.valueError ("invalid literal for int with base 10: " ++ s))
  | c :: cs =>
    match decAux (c :: cs) 0 with
    | some n => .ok (n : Int)
    | none => .error (.valueError ("invalid literal for int with base 10: " ++ s))
  | [] => .error (.valueError ("invalid literal for int with base 10: " ++ s))

/-- Python truthiness of an optional string: None and the empty string are
falsy, every other string is truthy. -/
def truthyOpt : Option String → Bool
  | none => false
  | some s => !(s == "")

/-- Python str[n:] (slice by code points). -/
def pyDrop (s : String) (n : Nat) : String := ⟨s.data.drop n⟩

/-- Python str.startswith. -/
def pyStartsWith (s pre : String) : Bool := pre.data.isPrefixOf s.data

/-- Core of Python str.split(sep) for a one-character separator:
no merging of separators, empty string yields one empty field. -/
def splitChars (sep : Char) : List Char → List (List Char)
  | [] => [[]]
  | c :: cs =>
    if c = sep then [] :: splitChars sep cs
    else
      match splitChars sep cs with
      | [] => [[c]]
      | s :: rest => (c :: s) :: rest

/-- Python str.split(sep) for a one-character separator. -/
def pySplit (s : String) (sep : Char) : List String :=
  (splitChars sep s.data).map fun l => ⟨l⟩

/-- Python str.strip(): remove leading and trailing whitespace. -/
def pyStrip (s : String) : String :=
  ⟨((s.data.dropWhile Char.isWhitespace).reverse.dropWhile Char.isWhitespace).reverse⟩

/-- Python str.upper() (ASCII behaviour). -/
def pyUpper (s : String) : String := ⟨s.data.map Char.toUpper⟩

/-- A Python list comprehension over a fallible element operation: elements
evaluated left to right, the first exception propagates. -/
def mapPyM {α β : Type} (f : α → Py β) : List α → Py (List β)
  | [] => .ok []
  | a :: as => do
    let b ← f a
    let bs ← mapPyM f as
    pure (b :: bs)

/-- dict.get on a dictionary of string arguments. -/
def dictGet (d : List (String × String)) (k : String) : Option String :=
  match d.find? (fun kv => kv.1 == k) with
  | none => none
  | some kv => some kv.2

/-- The process environment: the MYSQL_* variables os.getenv consults. -/
structure Env where
  mysql_host : Option String := none
  mysql_port : Option String := none
  mysql_user : Option String := none
  mysql_password : Option String := none
  mysql_database : Option String := none
  mysql_charset : Option String := none
  mysql_collation : Option String := none
  mysql_sql_mode : Option String := none
deriving Repr, DecidableEq

/-- The config dict built by get_db_config. user/password/database may be
None (the dict-comprehension that drops None keys is modelled by keeping the
Option; config.get on a dropped key yields none either way, and config[k]
raises KeyError through pyGetDatabase below). -/
structure Config where
  host : String
  port : Int
  user : Option String
  password : Option String
  database : Option String
  charset : String
  collation : String
  autocommit : Bool
  sql_mode : String
deriving Repr, DecidableEq

/-- config["database"]: KeyError when the key was dropped as None. -/
def pyGetDatabase (c : Config) : Py String :=
  match c.database with
  | none => .error (.keyError "database")
  | some d => .ok d

/-- The initial config dict literal: environment variables with built-in
defaults; int() runs on the MYSQL_PORT value here. -/
def initConfig (env : Env) : Py Config := do
  let port ← pyInt (env.mysql_port.getD "3306")
  pure
    { host := env.mysql_host.getD "localhost"
      port := port
      user := env.mysql_user
      password := env.mysql_password
      database := env.mysql_database
      charset := env.mysql_charset.getD "utf8mb4"
      collation := env.mysql_collation.getD "utf8mb4_unicode_ci"
      autocommit := true
      sql_mode := env.mysql_sql_mode.getD "TRADITIONAL" }

/-- One iteration of the command-line override loop of get_db_config. -/
def applyOpt (c : Config) (opt arg : String) : Py Config :=
  if opt = "-h" ∨ opt = "--host" then .ok { c with host := arg }
  else if opt = "-p" ∨ opt = "--port" then do
    let p ← pyInt arg
    pure { c with port := p }
  else if opt = "-u" ∨ opt = "--user" then .ok { c with user := some arg }
  else if opt = "-P" ∨ opt = "--password" then .ok { c with password := some arg }
  else if opt = "-d" ∨ opt = "--database" then .ok { c with database := some arg }
  else if opt = "--charset" then .ok { c with charset := arg }
  else if opt = "--collation" then .ok { c with collation := arg }
  else .ok c

/-- get_db_config: env defaults, then command-line overrides in order, then
the mandatory-field check not all([get("user"), get("password"),
get("database")]) using Python truthiness. opts is the already-parsed
(option, argument) list produced by getopt. -/
def get_db_config (env : Env) (opts : List (String × String)) : Py Config := do
  let c0 ← initConfig env
  let c ← opts.foldlM (fun c po => applyOpt c po.1 po.2) c0
  if !(truthyOpt c.user && truthyOpt c.password && truthyOpt c.database) then
    .error (.valueError "Missing required database configuration")
  else
    .ok c

/-- Cursor state after cursor.execute: description is the list of column
names (the desc[0] projection of the driver descriptors), or none when the
statement produced no result set; fetchRes is the outcome of fetchall. -/
structure Cursor where
  description : Option (List String)
  fetchRes : Except MySQLError (List (List PyValue))
  rowcount : Int
deriving Repr, DecidableEq

/-- An open connection: the outcome of cursor.execute for each query string,
and of conn.commit. -/
structure Conn where
  exec : String → Except MySQLError Cursor
  commitRes : Except MySQLError Unit

/-- The reachable MySQL server: connect(**config) either fails or yields a
connection. -/
structure DB where
  connect : Config → Except MySQLError Conn

/-- Iterating cursor.description in a list comprehension: TypeError on None. -/
def pyIterCols : Option (List String) → Py (List String)
  | none => .error (.typeError "NoneType object is not iterable")
  | some cols => .ok cols

/-- mcp.types.Resource as built by list_resources. -/
structure Resource where
  uri : String
  name : String
  mimeType : String
  description : String
deriving Repr, DecidableEq

/-- mcp.types.TextContent. -/
structure TextContent where
  type : String
  text : String
deriving Repr, DecidableEq

def mkTableResource (t : String) : Resource :=
  { uri := "mysql://" ++ t ++ "/data"
    name := "Table: " ++ t
    mimeType := "text/plain"
    description := "Data in table: " ++ t }

/-- Handler list_resources: SHOW TABLES, one Resource per table; any
mysql.connector.Error is swallowed into the empty list. -/
def list_resources (env : Env) (opts : List (String × String)) (db : DB) :
    Py (List Resource) := do
  let config ← get_db_config env opts
  catchMySQL
    (do
      let conn ← liftE (db.connect config)
      let cursor ← liftE (conn.exec "SHOW TABLES")
      let tables ← liftE cursor.fetchRes
      let firsts ← mapPyM pyIndex0 tables
      pure (firsts.map fun v => mkTableResource v.toStr))
    (fun _ => .ok [])

/-- Handler read_resource: scheme check, table = first path segment after
mysql://, bounded SELECT, header plus comma-joined rows; mysql.connector
errors are re-raised as RuntimeError. -/
def read_resource (env : Env) (opts : List (String × String)) (db : DB)
    (uri : String) : Py String := do
  let config ← get_db_config env opts
  if !(pyStartsWith uri "mysql://") then
    .error (.valueError ("Invalid URI scheme: " ++ uri))
  else do
    let table ← pyHead (pySplit (pyDrop uri 8) '/')
    catchMySQL
      (do
        let conn ← liftE (db.connect config)
        let cursor ← liftE (conn.exec ("SELECT * FROM " ++ table ++ " LIMIT 100"))
        let columns ← pyIterCols cursor.description
        let rows ← liftE cursor.fetchRes
        let result := rows.map fun row => String.intercalate "," (row.map PyValue.toStr)
        pure (String.intercalate "\n" (String.intercalate "," columns :: result)))
      (fun e => .error (.runtimeError ("Database error: " ++ e.msg)))

/-- Handler call_tool: name and query validation, then execution with the
SHOW TABLES special case, the result-set case (with its inner fetch-error
guard), and the commit-and-rowcount case; mysql.connector errors from the
outer block come back as an in-band text result. -/
def call_tool (env : Env) (opts : List (String × String)) (db : DB)
    (name : String) (arguments : List (String × String)) : Py (List TextContent) := do
  let config ← get_db_config env opts
  if name ≠ "execute_sql" then
    .error (.valueError ("Unknown tool: " ++ name))
  else
    match dictGet arguments "query" with
    | none => .error (.valueError "Query is required")
    | some q =>
      if q = "" then .error (.valueError "Query is required")
      else
        catchMySQL
          (do
            let conn ← liftE (db.connect config)
            let cursor ← liftE (conn.exec q)
            if pyStartsWith (pyUpper (pyStrip q)) "SHOW TABLES" then do
              let tables ← liftE cursor.fetchRes
              let dbName ← pyGetDatabase config
              let firsts ← mapPyM pyIndex0 tables
              let strs ← mapPyM pyAsStr firsts
              pure [⟨"text", String.intercalate "\n" (("Tables_in_" ++ dbName) :: strs)⟩]
            else
              match cursor.description with
              | some columns =>
                match cursor.fetchRes with
                | .error e =>
                  pure [⟨"text", "Query executed but error fetching results: " ++ e.msg⟩]
                | .ok rows =>
                  pure [⟨"text", String.intercalate "\n"
                    (String.intercalate "," columns ::
                      rows.map fun row => String.intercalate "," (row.map PyValue.toStr))⟩]
              | none => do
                _ ← liftE conn.commitRes
                pure [⟨"text",
                  "Query executed successfully. Rows affected: " ++ toString cursor.rowcount⟩])
          (fun e => .ok [⟨"text", "Error executing query: " ++ e.msg⟩])

/-! ## Basic reduction lemmas for the exception monad -/

@[simp] theorem py_ok_bind {α β : Type} (a : α) (f : α → Py β) :
    (Except.ok a >>= f) = f a := rfl

@[simp] theorem py_error_bind {α β : Type} (e : PyError) (f : α → Py β) :
    ((Except.error e : Py α) >>= f) = Except.error e := rfl

@[simp] theorem py_pure {α : Type} (a : α) : (pure a : Py α) = Except.ok a := rfl

@[simp] theorem liftE_ok {α : Type} (a : α) :
    liftE (Except.ok a : Except MySQLError α) = Except.ok a := rfl

@[simp] theorem liftE_error {α : Type} (e : MySQLError) :
    liftE (Except.error e : Except MySQLError α) = Except.error (.mysqlError e) := rfl

@[simp] theorem catchMySQL_ok {α : Type} (a : α) (h : MySQLError → Py α) :
    catchMySQL (Except.ok a) h = Except.ok a := rfl

@[simp] theorem catchMySQL_mysql {α : Type} (e : MySQLError) (h : MySQLError → Py α) :
    catchMySQL (Except.error (.mysqlError e)) h = h e := rfl

@[simp] theorem catchMySQL_valueError {α : Type} (m : String) (h : MySQLError → Py α) :
    catchMySQL (Except.error (.valueError m)) h = Except.error (.valueError m) := rfl

@[simp] theorem catchMySQL_typeError {α : Type} (m : String) (h : MySQLError → Py α) :
    catchMySQL (Except.error (.typeError m)) h = Except.error (.typeError m) := rfl

@[simp] theorem catchMySQL_keyError {α : Type} (k : String) (h : MySQLError → Py α) :
    catchMySQL (Except.error (.keyError k)) h = Except.error (.keyError k) := rfl

/-! ## Reduction lemmas for the option-override loop of get_db_config -/

@[simp] theorem applyOpt_host (c : Config) (a : String) :
    applyOpt c "-h" a = .ok { c with host := a } := rfl

@[simp] theorem applyOpt_port (c : Config) (a : String) :
    applyOpt c "-p" a = (pyInt a >>= fun p => Except.ok { c with port := p }) := rfl

@[simp] theorem applyOpt_user (c : Config) (a : String) :
    applyOpt c "-u" a = .ok { c with user := some a } := rfl

@[simp] theorem applyOpt_password (c : Config) (a : String) :
    applyOpt c "-P" a = .ok { c with password := some a } := rfl

@[simp] theorem applyOpt_database (c : Config) (a : String) :
    applyOpt c "-d" a = .ok { c with database := some a } := rfl

@[simp] theorem applyOpt_charset (c : Config) (a : String) :
    applyOpt c "--charset" a = .ok { c with charset := a } := rfl

@[simp] theorem applyOpt_collation (c : Config) (a : String) :
    applyOpt c "--collation" a = .ok { c with collation := a } := rfl

/-- The canonical argument vector: each command-line variable supplied at most
once, in a fixed order. -/
def mkOpts (ah ap au aP ad ach aco : Option String) : List (String × String) :=
  (ah.map fun a => ("-h", a)).toList ++ (ap.map fun a => ("-p", a)).toList ++
  (au.map fun a => ("-u", a)).toList ++ (aP.map fun a => ("-P", a)).toList ++
  (ad.map fun a => ("-d", a)).toList ++ (ach.map fun a => ("--charset", a)).toList ++
  (aco.map fun a => ("--collation", a)).toList

/-- Merge of one variable: the explicit argument when present, else the
environment value. -/
def pick (arg envVal : Option String) : Option String :=
  match arg with
  | some a => some a
  | none => envVal

/-- The merged configuration get_db_config is expected to build: built-in
defaults overridden by environment values overridden by arguments. -/
def mergedConfig (env : Env) (ah ap au aP ad ach aco : Option String)
    (pe pa : Int) : Config :=
  { host := (pick ah env.mysql_host).getD "localhost"
    port := if ap.isSome then pa else pe
    user := pick au env.mysql_user
    password := pick aP env.mysql_password
    database := pick ad env.mysql_database
    charset := (pick ach env.mysql_charset).getD "utf8mb4"
    collation := (pick aco env.mysql_collation).getD "utf8mb4_unicode_ci"
    autocommit := true
    sql_mode := env.mysql_sql_mode.getD "TRADITIONAL" }

/-- Full characterization of get_db_config on a canonical argument vector:
the merged configuration when the mandatory fields are truthy, the
missing-configuration ValueError otherwise. pe is the parsed environment
port (default 3306), pa the parsed argument port when one is supplied. -/
theorem get_db_config_mkOpts (env : Env) (ah ap au aP ad ach aco : Option String)
    (pe pa : Int)
    (hpe : pyInt (env.mysql_port.getD "3306") = .ok pe)
    (hpa : ∀ s, ap = some s → pyInt s = .ok pa) :
    get_db_config env (mkOpts ah ap au aP ad ach aco) =
      if !(truthyOpt (pick au env.mysql_user) && truthyOpt (pick aP env.mysql_password) &&
            truthyOpt (pick ad env.mysql_database)) then
        .error (.valueError "Missing required database configuration")
      else
        .ok (mergedConfig env ah ap au aP ad ach aco pe pa) := by
  cases ap with
  | none =>
    rcases ah with _ | vh <;> rcases au with _ | vu <;> rcases aP with _ | vP <;>
      rcases ad with _ | vd <;> rcases ach with _ | vch <;> rcases aco with _ | vco <;>
      simp [get_db_config, initConfig, mkOpts, mergedConfig, pick, hpe, List.foldlM]
  | some s =>
    have hps := hpa s rfl
    rcases ah with _ | vh <;> rcases au with _ | vu <;> rcases aP with _ | vP <;>
      rcases ad with _ | vd <;> rcases ach with _ | vch <;> rcases aco with _ | vco <;>
      simp [get_db_config, initConfig, mkOpts, mergedConfig, pick, hpe, hps, List.foldlM]

/-! ## String and list helper lemmas -/

theorem splitChars_ne_nil (sep : Char) (l : List Char) : splitChars sep l ≠ [] := by
  induction l with
  | nil => simp [splitChars]
  | cons c cs ih =>
    simp only [splitChars]
    split
    · simp
    · cases h : splitChars sep cs with
      | nil => simp
      | cons s rest => simp

theorem splitChars_append (sep : Char) (t r : List Char) (ht : sep ∉ t) :
    splitChars sep (t ++ sep :: r) = t :: splitChars sep r := by
  induction t with
  | nil => simp [splitChars]
  | cons c cs ih =>
    have hc : c ≠ sep := by
      intro h
      exact ht (by simp [h])
    have hmem : sep ∉ cs := fun h => ht (List.mem_cons_of_mem _ h)
    rw [List.cons_append]
    simp only [splitChars, if_neg hc]
    rw [ih hmem]

/-- The scheme check accepts every URI of the form mysql://... -/
theorem pyStartsWith_scheme (s : String) :
    pyStartsWith ("mysql://" ++ s) "mysql://" = true := by
  simp only [pyStartsWith, String.data_append]
  rw [List.isPrefixOf_iff_prefix]
  exact List.prefix_append _ _

/-- Scheme check for the three-piece URI shape used in the table theorems. -/
theorem pyStartsWith_scheme_seg (t u v : String) :
    pyStartsWith ("mysql://" ++ t ++ u ++ v) "mysql://" = true := by
  have h : ("mysql://" ++ t ++ u ++ v).data =
      "mysql://".data ++ (t.data ++ (u.data ++ v.data)) := by
    simp [String.data_append]
  simp only [pyStartsWith, h]
  rw [List.isPrefixOf_iff_prefix]
  exact List.prefix_append _ _

/-- The table consulted by read_resource is exactly the path segment between
the scheme and the first following slash. -/
theorem table_of_uri (t rest : String) (ht : ('/' : Char) ∉ t.data) :
    pyHead (pySplit (pyDrop ("mysql://" ++ t ++ "/" ++ rest) 8) '/') = .ok t := by
  have h1 : ("mysql://" ++ t ++ "/" ++ rest).data =
      "mysql://".data ++ (t.data ++ '/' :: rest.data) := by
    simp [String.data_append]
  have h2 : pyDrop ("mysql://" ++ t ++ "/" ++ rest) 8 = ⟨t.data ++ '/' :: rest.data⟩ := by
    simp only [pyDrop, h1]
    rw [show (8 : Nat) = "mysql://".data.length from rfl, List.drop_left]
  rw [h2]
  simp only [pySplit]
  rw [splitChars_append '/' t.data rest.data ht]
  rfl

/-- A URI parse always yields a first segment (str.split is never empty). -/
theorem pyHead_pySplit (s : String) (sep : Char) :
    ∃ t, pyHead (pySplit s sep) = .ok t := by
  cases h : splitChars sep s.data with
  | nil => exact absurd h (splitChars_ne_nil sep s.data)
  | cons l rest =>
    refine ⟨⟨l⟩, ?_⟩
    simp [pySplit, pyHead, h]

/-- Rows shaped like SHOW TABLES output (one value per row) index cleanly. -/
theorem mapM_index0_str (names : List String) :
    mapPyM pyIndex0 (names.map fun s => [PyValue.str s]) = .ok (names.map PyValue.str) := by
  induction names with
  | nil => rfl
  | cons n ns ih => simp [mapPyM, pyIndex0, ih]

theorem mapM_asStr (names : List String) :
    mapPyM pyAsStr (names.map PyValue.str) = .ok names := by
  induction names with
  | nil => rfl
  | cons n ns ih => simp [mapPyM, pyAsStr, ih]

/-! ## Concrete fixtures used by the witnesses -/

/-- Environment supplying only the mandatory variables. -/
def envW : Env :=
  { mysql_user := some "u", mysql_password := some "p", mysql_database := some "testdb" }

/-- The configuration get_db_config resolves from envW with no arguments. -/
def cfgW : Config :=
  { host := "localhost", port := 3306, user := some "u", password := some "p"
    database := some "testdb", charset := "utf8mb4", collation := "utf8mb4_unicode_ci"
    autocommit := true, sql_mode := "TRADITIONAL" }

/-- Cursor for SELECT * FROM t LIMIT 100 over the spec example table. -/
def cursorSel : Cursor :=
  { description := some ["col1", "col2"]
    fetchRes := .ok [[.int 1, .str "a"], [.int 2, .str "b"]]
    rowcount := 2 }

/-- Cursor for a SHOW TABLES statement over tables t1, t2. -/
def cursorShow : Cursor :=
  { description := some ["Tables_in_testdb"]
    fetchRes := .ok [[.str "t1"], [.str "t2"]]
    rowcount := 2 }

/-- Cursor after a DML statement: no result set, one row affected. -/
def cursorIns : Cursor :=
  { description := none, fetchRes := .error ⟨"no result set"⟩, rowcount := 1 }

/-- A healthy connection serving the three scenario statements. -/
def connW : Conn :=
  { exec := fun q =>
      if q = "SELECT * FROM t LIMIT 100" then .ok cursorSel
      else if q = "show tables" then .ok cursorShow
      else if q = "INSERT INTO t VALUES (3)" then .ok cursorIns
      else .error ⟨"You have an error in your SQL syntax"⟩
    commitRes := .ok () }

def dbW : DB := { connect := fun _ => .ok connW }

/-- An unreachable database server. -/
def dbDead : DB := { connect := fun _ => .error ⟨"2003: cannot connect"⟩ }

/-- A connection on which every statement fails. -/
def connFail : Conn :=
  { exec := fun _ => .error ⟨"2013: lost connection"⟩
    commitRes := .error ⟨"2013: lost connection"⟩ }

def dbConnFail : DB := { connect := fun _ => .ok connFail }

/-- A reachable database with no tables. -/
def connEmpty : Conn :=
  { exec := fun _ =>
      .ok { description := some ["Tables_in_testdb"], fetchRes := .ok [], rowcount := 0 }
    commitRes := .ok () }

def dbEmpty : DB := { connect := fun _ => .ok connEmpty }

/-- A connection whose statements succeed without a result set but whose
commit fails. -/
def connInsFail : Conn :=
  { exec := fun _ => .ok cursorIns, commitRes := .error ⟨"commit failed"⟩ }

def dbInsFail : DB := { connect := fun _ => .ok connInsFail }

/-- Environment for the C6 counterexample: all three mandatory variables are
present, but the password is present as the empty string. -/
def envC6 : Env :=
  { mysql_user := some "u", mysql_password := some "", mysql_database := some "db" }

/-! ## Claim theorems -/

/-- C1: get_db_config merges, in order of increasing precedence, built-in
defaults (host=localhost, port=3306, charset=utf8mb4,
collation=utf8mb4_unicode_ci, sqlMode=TRADITIONAL), then environment
variables, then explicit command-line arguments: for every variable present
in both environment and arguments the argument wins (pick), and a variable
present only in the environment is used; see mergedConfig. -/
theorem get_db_config_precedence (env : Env) (ah ap au aP ad ach aco : Option String)
    (pe pa : Int)
    (hpe : pyInt (env.mysql_port.getD "3306") = .ok pe)
    (hpa : ∀ s, ap = some s → pyInt s = .ok pa)
    (hu : truthyOpt (pick au env.mysql_user) = true)
    (hP : truthyOpt (pick aP env.mysql_password) = true)
    (hd : truthyOpt (pick ad env.mysql_database) = true) :
    get_db_config env (mkOpts ah ap au aP ad ach aco) =
      .ok (mergedConfig env ah ap au aP ad ach aco pe pa) := by
  rw [get_db_config_mkOpts env ah ap au aP ad ach aco pe pa hpe hpa]
  simp [hu, hP, hd]

/-- Environment in which every MYSQL_* variable is set, for the precedence
witness. -/
def envBoth : Env :=
  { mysql_host := some "envhost", mysql_port := some "3307"
    mysql_user := some "envuser", mysql_password := some "envpass"
    mysql_database := some "envdb", mysql_charset := some "envch"
    mysql_collation := some "envcoll", mysql_sql_mode := some "ENVMODE" }

theorem get_db_config_precedence_witness :
    get_db_config envBoth
        (mkOpts (some "arghost") (some "4000") (some "arguser") (some "argpass")
          (some "argdb") (some "argch") (some "argcoll")) =
      .ok { host := "arghost", port := 4000, user := some "arguser"
            password := some "argpass", database := some "argdb", charset := "argch"
            collation := "argcoll", autocommit := true, sql_mode := "ENVMODE" } := by
  have h := get_db_config_precedence envBoth (some "arghost") (some "4000") (some "arguser")
    (some "argpass") (some "argdb") (some "argch") (some "argcoll") 3307 4000
    (by decide) (by intro s hs; injection hs with h2; subst h2; decide)
    (by decide) (by decide) (by decide)
  exact h

/-- C6 counterexample: user, password and database are all present in the
environment (the password as the empty string), yet get_db_config raises the
missing-configuration error, contradicting the claim that it returns the
merged configuration without error whenever all three are present. -/
theorem get_db_config_present_empty_counterexample :
    envC6.mysql_user.isSome = true ∧ envC6.mysql_password.isSome = true ∧
    envC6.mysql_database.isSome = true ∧
    get_db_config envC6 [] =
      .error (.valueError "Missing required database configuration") :=
  ⟨rfl, rfl, rfl, rfl⟩

/-- C6 (amended): with well-formed port values, get_db_config fails with the
missing-configuration ValueError exactly when, after merging defaults,
environment and arguments, any of user, password or database is absent or
empty (Python-falsy); when all three are present and nonempty it returns the
merged configuration without error. -/
theorem get_db_config_required_check (env : Env) (ah ap au aP ad ach aco : Option String)
    (pe pa : Int)
    (hpe : pyInt (env.mysql_port.getD "3306") = .ok pe)
    (hpa : ∀ s, ap = some s → pyInt s = .ok pa) :
    ((truthyOpt (pick au env.mysql_user) && truthyOpt (pick aP env.mysql_password) &&
        truthyOpt (pick ad env.mysql_database)) = false →
      get_db_config env (mkOpts ah ap au aP ad ach aco) =
        .error (.valueError "Missing required database configuration")) ∧
    ((truthyOpt (pick au env.mysql_user) && truthyOpt (pick aP env.mysql_password) &&
        truthyOpt (pick ad env.mysql_database)) = true →
      get_db_config env (mkOpts ah ap au aP ad ach aco) =
        .ok (mergedConfig env ah ap au aP ad ach aco pe pa)) := by
  rw [get_db_config_mkOpts env ah ap au aP ad ach aco pe pa hpe hpa]
  constructor <;> intro h <;> simp [h]

theorem get_db_config_required_check_witness :
    get_db_config { mysql_user := some "u" } [] =
      .error (.valueError "Missing required database configuration") ∧
    get_db_config envW [] = .ok cfgW := by
  constructor
  · exact (get_db_config_required_check { mysql_user := some "u" }
      none none none none none none none 3306 0 (by decide) (by intro s hs; cases hs)).1
      (by decide)
  · exact (get_db_config_required_check envW
      none none none none none none none 3306 0 (by decide) (by intro s hs; cases hs)).2
      (by decide)

/-- C10: supplying the empty string explicitly for user, password or database
(here as -u, -P, -d arguments) is treated exactly like an absent value: the
mandatory-field check tests Python truthiness, so get_db_config raises the
missing-configuration error although the field was provided. -/
theorem get_db_config_empty_arg (env : Env) (pe : Int)
    (hpe : pyInt (env.mysql_port.getD "3306") = .ok pe) :
    get_db_config env [("-u", "")] =
      .error (.valueError "Missing required database configuration") ∧
    get_db_config env [("-P", "")] =
      .error (.valueError "Missing required database configuration") ∧
    get_db_config env [("-d", "")] =
      .error (.valueError "Missing required database configuration") := by
  refine ⟨?_, ?_, ?_⟩
  · have h := get_db_config_mkOpts env none none (some "") none none none none pe 0 hpe
      (by intro s hs; cases hs)
    simpa [mkOpts, pick, truthyOpt] using h
  · have h := get_db_config_mkOpts env none none none (some "") none none none pe 0 hpe
      (by intro s hs; cases hs)
    simpa [mkOpts, pick, truthyOpt] using h
  · have h := get_db_config_mkOpts env none none none none (some "") none none pe 0 hpe
      (by intro s hs; cases hs)
    simpa [mkOpts, pick, truthyOpt] using h

theorem get_db_config_empty_arg_witness :
    get_db_config envW [("-P", "")] =
      .error (.valueError "Missing required database configuration") :=
  (get_db_config_empty_arg envW 3306 (by decide)).2.1

/-- C9: every handler resolves the configuration at entry, before anything
else, so a configuration failure propagates out of all three handlers for
every database behaviour and request: out of list_resources despite its
empty-list leniency, and out of call_tool before the unknown-tool and
missing-query checks. -/
theorem handlers_resolve_config_first (env : Env) (opts : List (String × String))
    (err : PyError) (hconf : get_db_config env opts = .error err) :
    (∀ db, list_resources env opts db = .error err) ∧
    (∀ db uri, read_resource env opts db uri = .error err) ∧
    (∀ db name args, call_tool env opts db name args = .error err) := by
  refine ⟨fun db => ?_, fun db uri => ?_, fun db name args => ?_⟩
  · simp [list_resources, hconf]
  · simp [read_resource, hconf]
  · simp [call_tool, hconf]

theorem handlers_resolve_config_first_witness :
    list_resources { } [] dbDead =
      .error (.valueError "Missing required database configuration") ∧
    read_resource { } [] dbDead "mysql://t/data" =
      .error (.valueError "Missing required database configuration") ∧
    call_tool { } [] dbDead "not_a_tool" [] =
      .error (.valueError "Missing required database configuration") :=
  ⟨(handlers_resolve_config_first { } []
      (.valueError "Missing required database configuration") rfl).1 dbDead,
   (handlers_resolve_config_first { } []
      (.valueError "Missing required database configuration") rfl).2.1 dbDead "mysql://t/data",
   (handlers_resolve_config_first { } []
      (.valueError "Missing required database configuration") rfl).2.2 dbDead "not_a_tool" []⟩

@[simp] theorem dictGet_query (q : String) : dictGet [("query", q)] "query" = some q := rfl

/-- C2: under a resolvable configuration, read_resource rejects every URI not
beginning with mysql:// with the InvalidInput ValueError; for a URI
mysql://t/... the table consulted is exactly the segment before the first
following slash (trailing segments ignored), the statement run is the
LIMIT-100 bounded SELECT on that table, and the result is the comma-joined
column-header row followed by the comma-joined data rows, newline-separated. -/
theorem read_resource_spec (env : Env) (opts : List (String × String)) (c : Config)
    (hconf : get_db_config env opts = .ok c) :
    (∀ (db : DB) (uri : String), pyStartsWith uri "mysql://" = false →
      read_resource env opts db uri = .error (.valueError ("Invalid URI scheme: " ++ uri))) ∧
    (∀ (db : DB) (conn : Conn) (cursor : Cursor) (t rest : String)
        (cols : List String) (rows : List (List PyValue)),
      ('/' : Char) ∉ t.data →
      db.connect c = .ok conn →
      conn.exec ("SELECT * FROM " ++ t ++ " LIMIT 100") = .ok cursor →
      cursor.description = some cols →
      cursor.fetchRes = .ok rows →
      read_resource env opts db ("mysql://" ++ t ++ "/" ++ rest) =
        .ok (String.intercalate "\n"
          (String.intercalate "," cols ::
            rows.map fun row => String.intercalate "," (row.map PyValue.toStr)))) := by
  constructor
  · intro db uri huri
    simp [read_resource, hconf, huri]
  · intro db conn cursor t rest cols rows ht hconn hexec hdesc hfetch
    have htab := table_of_uri t rest ht
    simp [read_resource, hconf, pyStartsWith_scheme_seg, htab, hconn, hexec, hdesc, hfetch,
      pyIterCols]

theorem read_resource_spec_witness :
    read_resource envW [] dbW "http://x" =
      .error (.valueError "Invalid URI scheme: http://x") ∧
    read_resource envW [] dbW "mysql://t/data" = .ok "col1,col2\n1,a\n2,b" := by
  constructor
  · exact (read_resource_spec envW [] cfgW rfl).1 dbW "http://x" (by decide)
  · exact (read_resource_spec envW [] cfgW rfl).2 dbW connW cursorSel "t" "data"
      ["col1", "col2"] [[.int 1, .str "a"], [.int 2, .str "b"]]
      (by decide) rfl rfl rfl rfl

/-- Helper for the no-raise direction of C3: a try/except-Error block whose
handler never raises a mysql.connector.Error cannot let one escape: body
failures of that class are caught, every other exception class passes
through unchanged. -/
theorem catchMySQL_no_mysql {α : Type} (body : Py α) (h : MySQLError → Py α)
    (hh : ∀ e1 e2, h e1 ≠ .error (.mysqlError e2)) (e2 : MySQLError) :
    catchMySQL body h ≠ .error (.mysqlError e2) := by
  cases body with
  | ok a => simp [catchMySQL]
  | error err =>
    cases err with
    | valueError m => simp [catchMySQL]
    | runtimeError m => simp [catchMySQL]
    | keyError k => simp [catchMySQL]
    | typeError m => simp [catchMySQL]
    | indexError m => simp [catchMySQL]
    | mysqlError e1 => simpa [catchMySQL] using hh e1 e2

/-- C3: database-level failures are handled asymmetrically by design. Every
locus of a mysql.connector.Error during read_resource - connect, the bounded
SELECT, the fetch - is re-raised to the caller as the RuntimeError carrying
the database message. Every locus during an execute_sql call_tool invocation
- connect, execute, the fetch of the SHOW TABLES branch, the inner fetch of
the result-set branch, the commit of the no-result-set branch - is caught and
returned as an in-band text result, and the tool call never raises a
mysql.connector.Error at all, for any database behaviour whatsoever. -/
theorem db_error_asymmetry (env : Env) (opts : List (String × String)) (c : Config)
    (hconf : get_db_config env opts = .ok c) :
    (∀ (db : DB) (t rest : String) (e : MySQLError), ('/' : Char) ∉ t.data →
      db.connect c = .error e →
      read_resource env opts db ("mysql://" ++ t ++ "/" ++ rest) =
        .error (.runtimeError ("Database error: " ++ e.msg))) ∧
    (∀ (db : DB) (conn : Conn) (t rest : String) (e : MySQLError), ('/' : Char) ∉ t.data →
      db.connect c = .ok conn →
      conn.exec ("SELECT * FROM " ++ t ++ " LIMIT 100") = .error e →
      read_resource env opts db ("mysql://" ++ t ++ "/" ++ rest) =
        .error (.runtimeError ("Database error: " ++ e.msg))) ∧
    (∀ (db : DB) (conn : Conn) (cursor : Cursor) (t rest : String)
        (cols : List String) (e : MySQLError), ('/' : Char) ∉ t.data →
      db.connect c = .ok conn →
      conn.exec ("SELECT * FROM " ++ t ++ " LIMIT 100") = .ok cursor →
      cursor.description = some cols →
      cursor.fetchRes = .error e →
      read_resource env opts db ("mysql://" ++ t ++ "/" ++ rest) =
        .error (.runtimeError ("Database error: " ++ e.msg))) ∧
    (∀ (db : DB) (q : String) (e : MySQLError), q ≠ "" → db.connect c = .error e →
      call_tool env opts db "execute_sql" [("query", q)] =
        .ok [⟨"text", "Error executing query: " ++ e.msg⟩]) ∧
    (∀ (db : DB) (conn : Conn) (q : String) (e : MySQLError), q ≠ "" →
      db.connect c = .ok conn → conn.exec q = .error e →
      call_tool env opts db "execute_sql" [("query", q)] =
        .ok [⟨"text", "Error executing query: " ++ e.msg⟩]) ∧
    (∀ (db : DB) (conn : Conn) (cursor : Cursor) (q : String) (e : MySQLError),
      pyStartsWith (pyUpper (pyStrip q)) "SHOW TABLES" = true →
      db.connect c = .ok conn → conn.exec q = .ok cursor →
      cursor.fetchRes = .error e →
      call_tool env opts db "execute_sql" [("query", q)] =
        .ok [⟨"text", "Error executing query: " ++ e.msg⟩]) ∧
    (∀ (db : DB) (conn : Conn) (cursor : Cursor) (q : String) (cols : List String)
        (e : MySQLError), q ≠ "" →
      pyStartsWith (pyUpper (pyStrip q)) "SHOW TABLES" = false →
      db.connect c = .ok conn → conn.exec q = .ok cursor →
      cursor.description = some cols →
      cursor.fetchRes = .error e →
      call_tool env opts db "execute_sql" [("query", q)] =
        .ok [⟨"text", "Query executed but error fetching results: " ++ e.msg⟩]) ∧
    (∀ (db : DB) (conn : Conn) (cursor : Cursor) (q : String) (e : MySQLError), q ≠ "" →
      pyStartsWith (pyUpper (pyStrip q)) "SHOW TABLES" = false →
      db.connect c = .ok conn → conn.exec q = .ok cursor →
      cursor.description = none →
      conn.commitRes = .error e →
      call_tool env opts db "execute_sql" [("query", q)] =
        .ok [⟨"text", "Error executing query: " ++ e.msg⟩]) ∧
    (∀ (db : DB) (name : String) (args : List (String × String)) (e : MySQLError),
      call_tool env opts db name args ≠ .error (.mysqlError e)) := by
  refine ⟨fun db t rest e ht hconn => ?_,
    fun db conn t rest e ht hconn hexec => ?_,
    fun db conn cursor t rest cols e ht hconn hexec hdesc hfetch => ?_,
    fun db q e hq hconn => ?_,
    fun db conn q e hq hconn hexec => ?_,
    fun db conn cursor q e hmatch hconn hexec hfetch => ?_,
    fun db conn cursor q cols e hq hnotshow hconn hexec hdesc hfetch => ?_,
    fun db conn cursor q e hq hnotshow hconn hexec hdesc hcommit => ?_,
    fun db name args e => ?_⟩
  · simp [read_resource, hconf, pyStartsWith_scheme_seg, table_of_uri t rest ht, hconn]
  · simp [read_resource, hconf, pyStartsWith_scheme_seg, table_of_uri t rest ht, hconn,
      hexec]
  · simp [read_resource, hconf, pyStartsWith_scheme_seg, table_of_uri t rest ht, hconn,
      hexec, hdesc, pyIterCols, hfetch]
  · simp [call_tool, hconf, hq, hconn]
  · simp [call_tool, hconf, hq, hconn, hexec]
  · have hq : q ≠ "" := by
      intro h
      subst h
      exact absurd hmatch (by decide)
    simp [call_tool, hconf, hq, hmatch, hconn, hexec, hfetch]
  · simp [call_tool, hconf, hq, hnotshow, hconn, hexec, hdesc, hfetch]
  · simp [call_tool, hconf, hq, hnotshow, hconn, hexec, hdesc, hcommit]
  · by_cases hname : name = "execute_sql"
    · subst hname
      cases hq : dictGet args "query" with
      | none => simp [call_tool, hconf, hq]
      | some q =>
        by_cases hqe : q = ""
        · subst hqe
          simp [call_tool, hconf, hq]
        · simp [call_tool, hconf, hq, hqe]
          exact catchMySQL_no_mysql _ _ (fun e1 e2 => by simp) e
    · simp [call_tool, hconf, hname]

/-- Cursor whose statement succeeded but whose row materialization fails,
for the C3 witness. -/
def cursorFetchFail : Cursor :=
  { description := some ["col1", "col2"]
    fetchRes := .error ⟨"2013: lost connection"⟩
    rowcount := -1 }

def connFetchFail : Conn :=
  { exec := fun _ => .ok cursorFetchFail, commitRes := .ok () }

def dbFetchFail : DB := { connect := fun _ => .ok connFetchFail }

theorem db_error_asymmetry_witness :
    read_resource envW [] dbDead "mysql://t/data" =
      .error (.runtimeError "Database error: 2003: cannot connect") ∧
    read_resource envW [] dbConnFail "mysql://t/data" =
      .error (.runtimeError "Database error: 2013: lost connection") ∧
    read_resource envW [] dbFetchFail "mysql://t/data" =
      .error (.runtimeError "Database error: 2013: lost connection") ∧
    call_tool envW [] dbDead "execute_sql" [("query", "SELECT 1")] =
      .ok [⟨"text", "Error executing query: 2003: cannot connect"⟩] ∧
    call_tool envW [] dbConnFail "execute_sql" [("query", "SELECT 1")] =
      .ok [⟨"text", "Error executing query: 2013: lost connection"⟩] ∧
    call_tool envW [] dbFetchFail "execute_sql" [("query", "show tables")] =
      .ok [⟨"text", "Error executing query: 2013: lost connection"⟩] ∧
    call_tool envW [] dbFetchFail "execute_sql" [("query", "SELECT 1")] =
      .ok [⟨"text", "Query executed but error fetching results: 2013: lost connection"⟩] ∧
    call_tool envW [] dbInsFail "execute_sql" [("query", "INSERT INTO t VALUES (3)")] =
      .ok [⟨"text", "Error executing query: commit failed"⟩] ∧
    call_tool envW [] dbDead "execute_sql" [("query", "SELECT 1")] ≠
      .error (.mysqlError ⟨"2003: cannot connect"⟩) := by
  refine ⟨?_, ?_, ?_, ?_, ?_, ?_, ?_, ?_, ?_⟩
  · exact (db_error_asymmetry envW [] cfgW rfl).1 dbDead "t" "data"
      ⟨"2003: cannot connect"⟩ (by decide) rfl
  · exact (db_error_asymmetry envW [] cfgW rfl).2.1 dbConnFail connFail "t" "data"
      ⟨"2013: lost connection"⟩ (by decide) rfl rfl
  · exact (db_error_asymmetry envW [] cfgW rfl).2.2.1 dbFetchFail connFetchFail
      cursorFetchFail "t" "data" ["col1", "col2"] ⟨"2013: lost connection"⟩
      (by decide) rfl rfl rfl rfl
  · exact (db_error_asymmetry envW [] cfgW rfl).2.2.2.1 dbDead "SELECT 1"
      ⟨"2003: cannot connect"⟩ (by decide) rfl
  · exact (db_error_asymmetry envW [] cfgW rfl).2.2.2.2.1 dbConnFail connFail "SELECT 1"
      ⟨"2013: lost connection"⟩ (by decide) rfl rfl
  · exact (db_error_asymmetry envW [] cfgW rfl).2.2.2.2.2.1 dbFetchFail connFetchFail
      cursorFetchFail "show tables" ⟨"2013: lost connection"⟩ (by decide) rfl rfl rfl
  · exact (db_error_asymmetry envW [] cfgW rfl).2.2.2.2.2.2.1 dbFetchFail connFetchFail
      cursorFetchFail "SELECT 1" ["col1", "col2"] ⟨"2013: lost connection"⟩
      (by decide) (by decide) rfl rfl rfl rfl
  · exact (db_error_asymmetry envW [] cfgW rfl).2.2.2.2.2.2.2.1 dbInsFail connInsFail
      cursorIns "INSERT INTO t VALUES (3)" ⟨"commit failed"⟩
      (by decide) (by decide) rfl rfl rfl rfl
  · exact (db_error_asymmetry envW [] cfgW rfl).2.2.2.2.2.2.2.2 dbDead "execute_sql"
      [("query", "SELECT 1")] ⟨"2003: cannot connect"⟩

/-- C4: every database error raised while listing resources - an unreachable
server, a failing SHOW TABLES, equally a failing fetch - makes list_resources
return the empty list instead of propagating, which is indistinguishable from
a reachable database with no tables. -/
theorem list_resources_swallows (env : Env) (opts : List (String × String)) (c : Config)
    (hconf : get_db_config env opts = .ok c) :
    (∀ (db : DB) (e : MySQLError), db.connect c = .error e →
      list_resources env opts db = .ok []) ∧
    (∀ (db : DB) (conn : Conn) (e : MySQLError), db.connect c = .ok conn →
      conn.exec "SHOW TABLES" = .error e → list_resources env opts db = .ok []) ∧
    (∀ (db : DB) (conn : Conn) (cursor : Cursor) (e : MySQLError),
      db.connect c = .ok conn → conn.exec "SHOW TABLES" = .ok cursor →
      cursor.fetchRes = .error e → list_resources env opts db = .ok []) ∧
    (∀ (db : DB) (conn : Conn) (cursor : Cursor), db.connect c = .ok conn →
      conn.exec "SHOW TABLES" = .ok cursor → cursor.fetchRes = .ok [] →
      list_resources env opts db = .ok []) := by
  refine ⟨fun db e hconn => ?_, fun db conn e hconn hexec => ?_,
    fun db conn cursor e hconn hexec hfetch => ?_,
    fun db conn cursor hconn hexec hfetch => ?_⟩
  · simp [list_resources, hconf, hconn]
  · simp [list_resources, hconf, hconn, hexec]
  · simp [list_resources, hconf, hconn, hexec, hfetch]
  · simp [list_resources, hconf, hconn, hexec, hfetch, mapPyM]

theorem list_resources_swallows_witness :
    list_resources envW [] dbDead = .ok [] ∧
    list_resources envW [] dbConnFail = .ok [] ∧
    list_resources envW [] dbEmpty = .ok [] := by
  refine ⟨?_, ?_, ?_⟩
  · exact (list_resources_swallows envW [] cfgW rfl).1 dbDead ⟨"2003: cannot connect"⟩ rfl
  · exact (list_resources_swallows envW [] cfgW rfl).2.1 dbConnFail connFail
      ⟨"2013: lost connection"⟩ rfl rfl
  · exact (list_resources_swallows envW [] cfgW rfl).2.2.2 dbEmpty connEmpty
      { description := some ["Tables_in_testdb"], fetchRes := .ok [], rowcount := 0 }
      rfl rfl rfl

/-- C5: for every execute_sql query matching the table-enumeration shape
(case-insensitive, whitespace-stripped prefix SHOW TABLES), call_tool returns
the synthetic header line Tables_in_<database> built from the configured
database name, followed by one line per table name. -/
theorem call_tool_show_tables (env : Env) (opts : List (String × String)) (c : Config)
    (hconf : get_db_config env opts = .ok c) (dbname : String)
    (hdb : c.database = some dbname) (db : DB) (conn : Conn) (cursor : Cursor)
    (q : String) (names : List String)
    (hmatch : pyStartsWith (pyUpper (pyStrip q)) "SHOW TABLES" = true)
    (hconn : db.connect c = .ok conn) (hexec : conn.exec q = .ok cursor)
    (hfetch : cursor.fetchRes = .ok (names.map fun s => [PyValue.str s])) :
    call_tool env opts db "execute_sql" [("query", q)] =
      .ok [⟨"text", String.intercalate "\n" (("Tables_in_" ++ dbname) :: names)⟩] := by
  have hq : q ≠ "" := by
    intro h
    subst h
    exact absurd hmatch (by decide)
  simp [call_tool, hconf, hq, hconn, hexec, hmatch, hfetch, mapM_index0_str, mapM_asStr,
    pyGetDatabase, hdb]

theorem call_tool_show_tables_witness :
    call_tool envW [] dbW "execute_sql" [("query", "show tables")] =
      .ok [⟨"text", "Tables_in_testdb\nt1\nt2"⟩] := by
  exact call_tool_show_tables envW [] cfgW rfl "testdb" rfl dbW connW cursorShow
    "show tables" ["t1", "t2"] (by decide) rfl rfl rfl

/-- C7: under a resolvable configuration, call_tool rejects every request
whose tool name is not execute_sql with the unknown-tool ValueError, and
every execute_sql invocation whose arguments lack the query key or carry an
empty query with the query-required ValueError, in both cases for every
database behaviour, hence before any connection is attempted. -/
theorem call_tool_invalid_input (env : Env) (opts : List (String × String)) (c : Config)
    (hconf : get_db_config env opts = .ok c) :
    (∀ (db : DB) (name : String) (args : List (String × String)),
      name ≠ "execute_sql" →
      call_tool env opts db name args = .error (.valueError ("Unknown tool: " ++ name))) ∧
    (∀ (db : DB) (args : List (String × String)), dictGet args "query" = none →
      call_tool env opts db "execute_sql" args = .error (.valueError "Query is required")) ∧
    (∀ (db : DB) (args : List (String × String)), dictGet args "query" = some "" →
      call_tool env opts db "execute_sql" args = .error (.valueError "Query is required")) := by
  refine ⟨fun db name args hname => ?_, fun db args hq => ?_, fun db args hq => ?_⟩
  · simp [call_tool, hconf, hname]
  · simp [call_tool, hconf, hq]
  · simp [call_tool, hconf, hq]

theorem call_tool_invalid_input_witness :
    call_tool envW [] dbW "not_a_tool" [] =
      .error (.valueError "Unknown tool: not_a_tool") ∧
    call_tool envW [] dbW "execute_sql" [] =
      .error (.valueError "Query is required") ∧
    call_tool envW [] dbW "execute_sql" [("query", "")] =
      .error (.valueError "Query is required") := by
  refine ⟨?_, ?_, ?_⟩
  · exact (call_tool_invalid_input envW [] cfgW rfl).1 dbW "not_a_tool" [] (by decide)
  · exact (call_tool_invalid_input envW [] cfgW rfl).2.1 dbW [] rfl
  · exact (call_tool_invalid_input envW [] cfgW rfl).2.2 dbW [("query", "")] rfl

/-- C8: for every execute_sql statement that yields no result set (the cursor
reports no column descriptors), call_tool commits the transaction - a failing
commit changes the outcome to the in-band error text - and on a successful
commit returns the text message stating the number of rows affected. -/
theorem call_tool_no_result_set (env : Env) (opts : List (String × String)) (c : Config)
    (hconf : get_db_config env opts = .ok c) (db : DB) (conn : Conn) (cursor : Cursor)
    (q : String) (hq : q ≠ "")
    (hnotshow : pyStartsWith (pyUpper (pyStrip q)) "SHOW TABLES" = false)
    (hconn : db.connect c = .ok conn) (hexec : conn.exec q = .ok cursor)
    (hdesc : cursor.description = none) :
    (conn.commitRes = .ok () →
      call_tool env opts db "execute_sql" [("query", q)] =
        .ok [⟨"text", "Query executed successfully. Rows affected: " ++
          toString cursor.rowcount⟩]) ∧
    (∀ e, conn.commitRes = .error e →
      call_tool env opts db "execute_sql" [("query", q)] =
        .ok [⟨"text", "Error executing query: " ++ e.msg⟩]) := by
  constructor
  · intro hcommit
    simp [call_tool, hconf, hq, hconn, hexec, hnotshow, hdesc, hcommit]
  · intro e hcommit
    simp [call_tool, hconf, hq, hconn, hexec, hnotshow, hdesc, hcommit]

theorem call_tool_no_result_set_witness :
    call_tool envW [] dbW "execute_sql" [("query", "INSERT INTO t VALUES (3)")] =
      .ok [⟨"text", "Query executed successfully. Rows affected: 1"⟩] ∧
    call_tool envW [] dbInsFail "execute_sql" [("query", "INSERT INTO t VALUES (3)")] =
      .ok [⟨"text", "Error executing query: commit failed"⟩] := by
  constructor
  · exact (call_tool_no_result_set envW [] cfgW rfl dbW connW cursorIns
      "INSERT INTO t VALUES (3)" (by decide) (by decide) rfl rfl rfl).1 rfl
  · exact (call_tool_no_result_set envW [] cfgW rfl dbInsFail connInsFail cursorIns
      "INSERT INTO t VALUES (3)" (by decide) (by decide) rfl rfl rfl).2
      ⟨"commit failed"⟩ rfl
